import Mathlib

/-!
Verification development for the sage object store gateway
(`storage_handler.go`).  The repository carries two variants of the
storage handler: an earlier one that streams object bodies directly
(modelled in namespace `V1`) and a later one that redirects to a
pre-signed URL (modelled in namespace `V2`).  Both are embedded
faithfully below, together with models of the Go standard-library
functions they use (`strings.SplitN`, `strconv.ParseInt`, `path.Join`,
`path.Clean`).

Go strings are modelled as `List Char` (`GoStr`).
-/

abbrev GoStr := List Char

deriving instance DecidableEq for Except

/-- Model of Go `strings.SplitN(s, sep, n)` for a single-character
separator and `n > 0`: at most `n` substrings, the last one being the
unsplit remainder.  `splitN sep 0 s = []` matches Go's `nil` result for
`n == 0`. -/
def splitN (sep : Char) : Nat → GoStr → List GoStr
  | 0, _ => []
  | 1, s => [s]
  | _+2, [] => [[]]
  | n+2, c :: rest =>
    if c = sep then [] :: splitN sep (n+1) rest
    else
      match splitN sep (n+2) rest with
      | [] => [[c]]
      | p :: ps => (c :: p) :: ps

/-- Model of Go `strings.Split(s, sep)` for a single-character
separator: split at every occurrence.  `splitFull sep [] = [[]]`,
matching Go's `Split("", sep) == [""]`. -/
def splitFull (sep : Char) : GoStr → List GoStr
  | [] => [[]]
  | c :: rest =>
    if c = sep then [] :: splitFull sep rest
    else
      match splitFull sep rest with
      | [] => [[c]]
      | p :: ps => (c :: p) :: ps

/-- Model of Go `strings.Join(xs, sep)` for a single-character
separator. -/
def goJoin (sep : Char) : List GoStr → GoStr
  | [] => []
  | [x] => x
  | x :: y :: ys => x ++ sep :: goJoin sep (y :: ys)

/-- Value of a list of decimal digit characters. -/
def digitsToNat (s : GoStr) : Nat :=
  s.foldl (fun acc c => acc * 10 + (c.toNat - '0'.toNat)) 0

def isDigit (c : Char) : Bool := '0' ≤ c && c ≤ '9'

/-- Model of Go `strconv.ParseInt(s, 10, 64)`: optional leading sign,
then one or more decimal digits (base given explicitly, so no
underscores), value required to fit in a signed 64-bit integer.
Returns `none` exactly when Go returns a non-nil error. -/
def parseInt64 (s : GoStr) : Option Int :=
  let (neg, ds) :=
    match s with
    | '+' :: r => (false, r)
    | '-' :: r => (true, r)
    | r => (false, r)
  if ds.isEmpty then none
  else if ds.all isDigit then
    let v : Int := if neg then -(digitsToNat ds : Int) else (digitsToNat ds : Int)
    if -(2^63) ≤ v ∧ v ≤ 2^63 - 1 then some v else none
  else none

/-- The stack pass of Go `path.Clean`: components are processed left to
right; empty and `.` components are dropped, `..` pops the previous
component when possible (never popping another `..` in a relative path,
and silently dropped at the root of a rooted path).  `acc` holds the
output components in reverse order. -/
def cleanStack (rooted : Bool) : List GoStr → List GoStr → List GoStr
  | acc, [] => acc.reverse
  | acc, c :: cs =>
    if c = [] ∨ c = ['.'] then cleanStack rooted acc cs
    else if c = ['.', '.'] then
      match acc with
      | top :: acc' =>
        if top = ['.', '.'] then cleanStack rooted (c :: top :: acc') cs
        else cleanStack rooted acc' cs
      | [] => if rooted then cleanStack rooted [] cs else cleanStack rooted [c] cs
    else cleanStack rooted (c :: acc) cs

/-- Model of Go `path.Clean` (lexical processing only, as in the
standard library): shortest equivalent path, `"."` for the empty
result. -/
def clean (p : GoStr) : GoStr :=
  match p with
  | [] => ['.']
  | c :: _ =>
    let rooted := c == '/'
    let comps := cleanStack rooted [] (splitFull '/' p)
    let out := goJoin '/' comps
    if rooted then '/' :: out
    else if out = [] then ['.']
    else out

/-- Model of Go `path.Join`: skip leading empty elements, join the rest
(including any later empty elements) with `/` and `Clean` the result;
all-empty input yields the empty string. -/
def goPathJoin : List GoStr → GoStr
  | [] => []
  | e :: rest =>
    if e = [] then goPathJoin rest
    else clean (goJoin '/' (e :: rest))

example : splitN '/' 4 "j/t/n/1-x".data = ["j".data, "t".data, "n".data, "1-x".data] := by decide
example : splitN '/' 4 "a/b/c/d/e".data = ["a".data, "b".data, "c".data, "d/e".data] := by decide
example : splitN '/' 4 "a/b".data = ["a".data, "b".data] := by decide
example : splitN '-' 2 "123-x-y".data = ["123".data, "x-y".data] := by decide
example : splitN '-' 2 "abc".data = ["abc".data] := by decide
example : splitN '-' 2 ([] : GoStr) = [[]] := by decide
example : parseInt64 "123".data = some 123 := by decide
example : parseInt64 "-5".data = some (-5) := by decide
example : parseInt64 "+7".data = some 7 := by decide
example : parseInt64 "".data = none := by decide
example : parseInt64 "12a".data = none := by decide
example : clean "./t/n/1-x".data = "t/n/1-x".data := by decide
example : clean "a//b".data = "a/b".data := by decide
example : clean "a/../b".data = "b".data := by decide
example : clean "../a".data = "../a".data := by decide
example : goPathJoin ["".data, "j".data, "t".data, "n".data, "1-x".data] = "j/t/n/1-x".data := by decide
example : goPathJoin ["root".data, "j".data, "t".data, "n".data, "f".data] = "root/j/t/n/f".data := by decide

/-! ## Data model -/

/-- `StorageFile` from `storage_handler.go` (identical in both
variants).  `Timestamp` is the instant `time.Unix(0, nsec)`, modelled
as the signed nanosecond count `nsec` since the Unix epoch. -/
structure StorageFile where
  JobID : GoStr
  TaskID : GoStr
  NodeID : GoStr
  Filename : GoStr
  Timestamp : Int
deriving DecidableEq, Repr

/-- Kinds of request-parsing failure.  In Go these are `fmt.Errorf`
values whose message text interpolates the offending input; the text is
abstracted to the failure kind here (no property below depends on the
message wording of 400 responses). -/
inductive ParseErr where
  | invalidPath
  | emptyJob
  | emptyTask
  | emptyNode
  | emptyFilename
  | malformedFilename
  | invalidTimestamp
deriving DecidableEq, Repr

/-- `aws.String` constants `s3.ErrCodeNoSuchBucket`. -/
def ErrCodeNoSuchBucket : GoStr := "NoSuchBucket".data

/-- `s3.ErrCodeNoSuchKey`. -/
def ErrCodeNoSuchKey : GoStr := "NoSuchKey".data

/-- A backend (S3) error: either an `awserr.Error` carrying a code and
a message, or a generic Go error carrying only a message. -/
structure AwsErr where
  code : GoStr
  message : GoStr
deriving DecidableEq, Repr

inductive S3Err where
  | aws (e : AwsErr)
  | generic (msg : GoStr)
deriving DecidableEq, Repr

/-- The diagnostic text `err.Error()`.  For an `awserr.Error` the SDK
renders `"<code>: <message>"`. -/
def S3Err.errorString : S3Err → GoStr
  | .aws e => e.code ++ ": ".data ++ e.message
  | .generic msg => msg

/-- Result of `HeadObjectWithContext` on success (the fields the
handlers read). -/
structure HeadObjectOutput where
  ContentLength : Option Int := none
  ContentLanguage : Option GoStr := none
deriving DecidableEq, Repr

/-- Result of `GetObjectWithContext` on success: the object bytes and
the reported length. -/
structure GetObjectOutput where
  ObjectBody : GoStr
  ContentLength : Option Int := none
deriving DecidableEq, Repr

/-- The backend collaborator (`s3iface.S3API` as used by the
handlers): metadata fetch, object fetch, and local pre-signing of a
retrieval URL.  Each takes the bucket and the key. -/
structure S3Backend where
  headObject : GoStr → GoStr → Except S3Err HeadObjectOutput
  getObject : GoStr → GoStr → Except S3Err GetObjectOutput
  presign : GoStr → GoStr → Except S3Err GoStr

/-- `StorageHandler`.  The `Authenticator` interface is modelled by its
single method `Authorized(file, username, password, hasAuth)`. -/
structure StorageHandler where
  S3API : S3Backend
  S3Bucket : GoStr
  S3RootFolder : GoStr
  Authenticator : StorageFile → GoStr → GoStr → Bool → Bool

/-- HTTP request method. -/
inductive Method where
  | GET
  | HEAD
  | OPTIONS
  | other (name : GoStr)
deriving DecidableEq, Repr

/-- An inbound request: method, the path handed to the storage handler
(the router's mount point already stripped), and the HTTP Basic
credentials if present. -/
structure Request where
  method : Method
  path : GoStr
  basicAuth : Option (GoStr × GoStr)
deriving DecidableEq, Repr

/-- Go `r.BasicAuth()`: `(username, password, ok)`, with empty strings
when no credentials are supplied. -/
def Request.BasicAuth (r : Request) : GoStr × GoStr × Bool :=
  match r.basicAuth with
  | some (u, p) => (u, p, true)
  | none => ([], [], false)

/-- Response bodies, by provenance:
`jsonError msg` is the structured error document `\x7b"error": msg\x7d`
written by `respondJSONError`; `jsonParseError` is the same document
for a path-parsing failure (message text abstracted to the kind);
`jsonMeta` mirrors the backend metadata record (`respondJSON`);
`stream` is a streamed object body; `textPlain` is a plain-text body
written by `http.Error`; `redirect` is the hyperlink stub written by
`http.Redirect`. -/
inductive Body where
  | empty
  | jsonError (msg : GoStr)
  | jsonParseError (e : ParseErr)
  | jsonMeta (m : HeadObjectOutput)
  | stream (content : GoStr)
  | textPlain (msg : GoStr)
  | redirect (url : GoStr)
deriving DecidableEq, Repr

abbrev Headers := List (GoStr × GoStr)

/-- `w.Header().Set(k, v)`.  Headers are modelled as an association
list read from the front, so consing implements replacement
observationally. -/
def setHeader (hs : Headers) (k v : GoStr) : Headers := (k, v) :: hs

/-- `w.Header().Add(k, v)` (no prior value for `k` exists at any `Add`
call site in the source, so cons is faithful). -/
def addHeader (hs : Headers) (k v : GoStr) : Headers := (k, v) :: hs

/-- `w.Header().Get(k)`: first value for the key, if any. -/
def getHeader (hs : Headers) (k : GoStr) : Option GoStr :=
  (hs.find? (fun p => p.1 = k)).map (fun p => p.2)

/-- A finished HTTP response. -/
structure Response where
  status : Nat
  headers : Headers
  body : Body
deriving DecidableEq, Repr

/-- Modelled from the spec: `respondJSONError` (defined outside
`storage_handler.go`) writes the status code and the JSON error
document `\x7b"error": msg\x7d` with `Content-Type: application/json`. -/
def respondJSONError (hdrs : Headers) (status : Nat) (msg : GoStr) : Response :=
  ⟨status, setHeader hdrs "Content-Type".data "application/json".data, .jsonError msg⟩

/-- Modelled from the spec: `respondJSONError` applied to a
path-parsing failure (`err.Error()` of the parse error). -/
def respondJSONParseError (hdrs : Headers) (status : Nat) (e : ParseErr) : Response :=
  ⟨status, setHeader hdrs "Content-Type".data "application/json".data, .jsonParseError e⟩

/-- Modelled from the spec: `respondJSON` (defined outside
`storage_handler.go`) writes the status code and a JSON body mirroring
the given metadata record. -/
def respondJSON (hdrs : Headers) (status : Nat) (m : HeadObjectOutput) : Response :=
  ⟨status, setHeader hdrs "Content-Type".data "application/json".data, .jsonMeta m⟩

/-- Go `http.Error`: plain-text error helper. -/
def httpError (hdrs : Headers) (status : Nat) (msg : GoStr) : Response :=
  ⟨status,
    setHeader (setHeader hdrs "Content-Type".data "text/plain; charset=utf-8".data)
      "X-Content-Type-Options".data "nosniff".data,
    .textPlain (msg ++ ['\n'])⟩

/-- `strconv.FormatInt(i, 10)` / `fmt.Sprintf("%d", i)`. -/
def formatInt (i : Int) : GoStr := (toString i).data

/-! ## Shared parsing functions (identical logic in both variants) -/

/-- `parseNanosecondTimestamp`: `strconv.ParseInt(s, 10, 64)` then
`time.Unix(0, nsec)`. -/
def parseNanosecondTimestamp (s : GoStr) : Except ParseErr Int :=
  match parseInt64 s with
  | none => .error .invalidTimestamp
  | some nsec => .ok nsec

/-- `extractTimestampFromFilename`: split on the first `-`; fewer than
two parts is a malformed filename, otherwise parse the first part as a
nanosecond timestamp. -/
def extractTimestampFromFilename (s : GoStr) : Except ParseErr Int :=
  match splitN '-' 2 s with
  | [p, _] => parseNanosecondTimestamp p
  | _ => .error .malformedFilename

/-- `s3KeyForFileID` (identical in both variants):
`path.Join(h.S3RootFolder, f.JobID, f.TaskID, f.NodeID, f.Filename)`. -/
def s3KeyForFileID (h : StorageHandler) (f : StorageFile) : GoStr :=
  goPathJoin [h.S3RootFolder, f.JobID, f.TaskID, f.NodeID, f.Filename]

/-! ## Variant 1: the streaming handler (first file section) -/

namespace V1

/-- `getRequestFileID`, streaming variant: split into at most four
parts on `/`; exactly four parts required; no emptiness checks on the
segments; the timestamp is extracted from the fourth part. -/
def getRequestFileID (path : GoStr) : Except ParseErr StorageFile :=
  match splitN '/' 4 path with
  | [jobID, taskID, nodeID, filename] =>
    match extractTimestampFromFilename filename with
    | .error e => .error e
    | .ok timestamp => .ok ⟨jobID, taskID, nodeID, filename, timestamp⟩
  | _ => .error .invalidPath

/-- `handleHEAD`, streaming variant: parse, `HeadObjectWithContext`,
map `NoSuchBucket` / `NoSuchKey` / `"NotFound"` codes to 404, other
AWS errors to 500 with the AWS code in the message, non-AWS errors to
500 with the full message; on success add `Content-Length` when
reported and respond 200 with the metadata as JSON. -/
def handleHEAD (h : StorageHandler) (hdrs : Headers) (r : Request) : Response :=
  match getRequestFileID r.path with
  | .error e => respondJSONParseError hdrs 400 e
  | .ok sf =>
    let s3key := s3KeyForFileID h sf
    match h.S3API.headObject h.S3Bucket s3key with
    | .error err =>
      match err with
      | .aws aerr =>
        if aerr.code = ErrCodeNoSuchBucket then
          respondJSONError hdrs 404 ("Bucket not found: ".data ++ S3Err.errorString (.aws aerr))
        else if aerr.code = ErrCodeNoSuchKey ∨ aerr.code = "NotFound".data then
          respondJSONError hdrs 404 ("File not found: ".data ++ S3Err.errorString (.aws aerr))
        else
          respondJSONError hdrs 500
            ("Error getting data, HeadObjectWithContext returned: ".data ++ aerr.code)
      | .generic msg =>
        respondJSONError hdrs 500
          ("Error getting data, HeadObjectWithContext returned: ".data ++ msg)
    | .ok hoo =>
      let hdrs :=
        match hoo.ContentLength with
        | some cl => addHeader hdrs "Content-Length".data (formatInt cl)
        | none => hdrs
      respondJSON hdrs 200 hoo

/-- `handleGET`, streaming variant: parse, authorize via
`h.Authenticator.Authorized` (401 with a `WWW-Authenticate` challenge
on failure), `GetObjectWithContext` (any error maps to 500), then
stream the body with `Content-Disposition` and `Content-Length`.
(Mid-stream `io.Copy` failures after the 200 status line are not
modelled; the object body is delivered whole by the backend model.) -/
def handleGET (h : StorageHandler) (hdrs : Headers) (r : Request) : Response :=
  match getRequestFileID r.path with
  | .error e => respondJSONParseError hdrs 400 e
  | .ok sf =>
    let s3key := s3KeyForFileID h sf
    let (username, password, hasAuth) := r.BasicAuth
    if ¬ h.Authenticator sf username password hasAuth then
      respondJSONError
        (setHeader hdrs "WWW-Authenticate".data "Basic domain=storage.sagecontinuum.org".data)
        401 "not authorized".data
    else
      match h.S3API.getObject h.S3Bucket s3key with
      | .error err =>
        respondJSONError hdrs 500
          ("Error getting data, GetObject returned: ".data ++ err.errorString)
      | .ok out =>
        let hdrs :=
          setHeader hdrs "Content-Disposition".data
            ("attachment; filename=".data ++ sf.Filename)
        let hdrs :=
          match out.ContentLength with
          | some cl => setHeader hdrs "Content-Length".data (formatInt cl)
          | none => hdrs
        ⟨200, hdrs, .stream out.ObjectBody⟩

/-- `ServeHTTP`, streaming variant: set
`Access-Control-Allow-Origin: *`, then dispatch on the method; OPTIONS
falls through (implicit empty 200), unknown methods get
`http.Error(405)`. -/
def ServeHTTP (h : StorageHandler) (r : Request) : Response :=
  let hdrs := setHeader [] "Access-Control-Allow-Origin".data "*".data
  match r.method with
  | .OPTIONS => ⟨200, hdrs, .empty⟩
  | .HEAD => handleHEAD h hdrs r
  | .GET => handleGET h hdrs r
  | .other _ => httpError hdrs 405 "Method Not Allowed".data

end V1

/-! ## Variant 2: the presign/redirect handler (second file section) -/

namespace V2

/-- `getRequestFileID`, presign variant: split into at most four parts
on `/`; exactly four parts required, each of job/task/node/filename
must be non-empty, then the timestamp is extracted from the
filename. -/
def getRequestFileID (path : GoStr) : Except ParseErr StorageFile :=
  match splitN '/' 4 path with
  | [jobID, taskID, nodeID, filename] =>
    if jobID = [] then .error .emptyJob
    else if taskID = [] then .error .emptyTask
    else if nodeID = [] then .error .emptyNode
    else if filename = [] then .error .emptyFilename
    else
      match extractTimestampFromFilename filename with
      | .error e => .error e
      | .ok timestamp => .ok ⟨jobID, taskID, nodeID, filename, timestamp⟩
  | _ => .error .invalidPath

/-- `handleS3Error`, presign variant: AWS `NoSuchBucket`/`NoSuchKey`
codes map to 404 `"not found"`; otherwise any error whose `Error()`
text starts with `"NotFound"` also maps to 404; everything else maps
to 500 with the diagnostic embedded. -/
def handleS3Error (hdrs : Headers) (err : S3Err) : Response :=
  let notFoundByCode : Bool :=
    match err with
    | .aws aerr => aerr.code = ErrCodeNoSuchBucket || aerr.code = ErrCodeNoSuchKey
    | .generic _ => false
  if notFoundByCode then
    respondJSONError hdrs 404 "not found".data
  else if ("NotFound".data).isPrefixOf err.errorString then
    respondJSONError hdrs 404 "not found".data
  else
    respondJSONError hdrs 500
      ("internal server error with S3 request: ".data ++ err.errorString)

/-- `handleHEAD`, presign variant: parse, `HeadObjectWithContext`
(errors via `handleS3Error`), then set `Content-Disposition` and
`Content-Length` and return with no body (implicit 200). -/
def handleHEAD (h : StorageHandler) (hdrs : Headers) (r : Request) : Response :=
  match getRequestFileID r.path with
  | .error e => respondJSONParseError hdrs 400 e
  | .ok sf =>
    match h.S3API.headObject h.S3Bucket (s3KeyForFileID h sf) with
    | .error err => handleS3Error hdrs err
    | .ok resp =>
      let hdrs :=
        setHeader hdrs "Content-Disposition".data
          ("attachment; filename=".data ++ sf.Filename)
      let hdrs :=
        match resp.ContentLength with
        | some cl => addHeader hdrs "Content-Length".data (formatInt cl)
        | none => hdrs
      ⟨200, hdrs, .empty⟩

/-- `handleAuth`: `none` when authorized; otherwise the finished 401
response (`WWW-Authenticate` challenge plus JSON error body). -/
def handleAuth (h : StorageHandler) (hdrs : Headers) (r : Request) (f : StorageFile) :
    Option Response :=
  let (username, password, hasAuth) := r.BasicAuth
  if h.Authenticator f username password hasAuth then none
  else
    some (respondJSONError
      (setHeader hdrs "WWW-Authenticate".data "Basic domain=storage.sagecontinuum.org".data)
      401 "not authorized".data)

/-- `handleGET`, presign variant: parse, authorize, pre-sign a 60s
retrieval URL (local signing; failure maps to a plain-text 500), set
`Content-Disposition`, and issue a 307 redirect to the URL. -/
def handleGET (h : StorageHandler) (hdrs : Headers) (r : Request) : Response :=
  match getRequestFileID r.path with
  | .error e => respondJSONParseError hdrs 400 e
  | .ok sf =>
    match handleAuth h hdrs r sf with
    | some resp => resp
    | none =>
      match h.S3API.presign h.S3Bucket (s3KeyForFileID h sf) with
      | .error err =>
        httpError hdrs 500 ("error getting presigned url: ".data ++ err.errorString)
      | .ok presignedURL =>
        let hdrs :=
          setHeader hdrs "Content-Disposition".data
            ("attachment; filename=".data ++ sf.Filename)
        ⟨307, setHeader hdrs "Location".data presignedURL, .redirect presignedURL⟩

/-- `ServeHTTP`, presign variant (identical dispatch to variant 1). -/
def ServeHTTP (h : StorageHandler) (r : Request) : Response :=
  let hdrs := setHeader [] "Access-Control-Allow-Origin".data "*".data
  match r.method with
  | .OPTIONS => ⟨200, hdrs, .empty⟩
  | .HEAD => handleHEAD h hdrs r
  | .GET => handleGET h hdrs r
  | .other _ => httpError hdrs 405 "Method Not Allowed".data

end V2

/-! ## Lemmas about the string primitives -/

theorem goJoin_cons_cons (sep : Char) (c : Char) (p : GoStr) (ps : List GoStr) :
    goJoin sep ((c :: p) :: ps) = c :: goJoin sep (p :: ps) := by
  cases ps <;> simp [goJoin]

theorem splitN_ne_nil (sep : Char) : ∀ (n : Nat) (s : GoStr), splitN sep (n+1) s ≠ []
  | 0, s => by simp [splitN]
  | n+1, [] => by simp [splitN]
  | n+1, c :: rest => by
    simp only [splitN]
    split
    · simp
    · split <;> simp_all

theorem splitFull_ne_nil (sep : Char) : ∀ (s : GoStr), splitFull sep s ≠ []
  | [] => by simp [splitFull]
  | c :: rest => by
    simp only [splitFull]
    split
    · simp
    · split <;> simp_all

theorem goJoin_splitN (sep : Char) : ∀ (n : Nat) (s : GoStr),
    goJoin sep (splitN sep (n+1) s) = s := by
  intro n s
  induction s generalizing n with
  | nil => cases n <;> simp [splitN, goJoin]
  | cons c rest ih =>
    cases n with
    | zero => simp [splitN, goJoin]
    | succ n =>
      simp only [splitN]
      by_cases hc : c = sep
      · rw [if_pos hc]
        cases hsp : splitN sep (n+1) rest with
        | nil => exact absurd hsp (splitN_ne_nil sep n rest)
        | cons p ps =>
          have hg : goJoin sep ([] :: p :: ps) = sep :: goJoin sep (p :: ps) := by
            simp [goJoin]
          rw [hg, ← hsp, ih n, hc]
      · rw [if_neg hc]
        cases hsp : splitN sep (n+2) rest with
        | nil => exact absurd hsp (splitN_ne_nil sep (n+1) rest)
        | cons p ps =>
          show goJoin sep ((c :: p) :: ps) = c :: rest
          rw [goJoin_cons_cons, ← hsp, ih (n+1)]

theorem goJoin_splitFull (sep : Char) : ∀ (s : GoStr),
    goJoin sep (splitFull sep s) = s := by
  intro s
  induction s with
  | nil => simp [splitFull, goJoin]
  | cons c rest ih =>
    simp only [splitFull]
    by_cases hc : c = sep
    · rw [if_pos hc]
      cases hsp : splitFull sep rest with
      | nil => exact absurd hsp (splitFull_ne_nil sep rest)
      | cons p ps =>
        have hg : goJoin sep ([] :: p :: ps) = sep :: goJoin sep (p :: ps) := by
          simp [goJoin]
        rw [hg, ← hsp, ih, hc]
    · rw [if_neg hc]
      cases hsp : splitFull sep rest with
      | nil => exact absurd hsp (splitFull_ne_nil sep rest)
      | cons p ps =>
        show goJoin sep ((c :: p) :: ps) = c :: rest
        rw [goJoin_cons_cons, ← hsp, ih]

/-- Components that `path.Clean` leaves untouched. -/
def goodComp (c : GoStr) : Prop := c ≠ [] ∧ c ≠ ['.'] ∧ c ≠ ['.', '.']

instance (c : GoStr) : Decidable (goodComp c) := by
  unfold goodComp
  infer_instance

theorem cleanStack_all_good (rooted : Bool) :
    ∀ (comps : List GoStr) (acc : List GoStr), (∀ c ∈ comps, goodComp c) →
      cleanStack rooted acc comps = acc.reverse ++ comps := by
  intro comps
  induction comps with
  | nil => intro acc _; simp [cleanStack]
  | cons c cs ih =>
    intro acc hgood
    obtain ⟨h1, h2, h3⟩ := hgood c (List.mem_cons_self c cs)
    simp only [cleanStack]
    rw [if_neg (by simp [h1, h2]), if_neg h3]
    rw [ih (c :: acc) (fun d hd => hgood d (List.mem_cons_of_mem c hd))]
    simp

theorem clean_fixed (p : GoStr) (hgood : ∀ c ∈ splitFull '/' p, goodComp c) :
    clean p = p := by
  cases p with
  | nil =>
    exact absurd (hgood [] (by simp [splitFull])) (by simp [goodComp])
  | cons c rest =>
    have hc : ¬ c = '/' := by
      intro hc
      subst hc
      exact absurd (hgood [] (by simp [splitFull])) (by simp [goodComp])
    simp only [clean]
    rw [show (c == '/') = false by simp [hc]]
    rw [cleanStack_all_good false _ [] hgood]
    simp only [List.reverse_nil, List.nil_append, Bool.false_eq_true, if_false]
    rw [goJoin_splitFull]
    simp

theorem goPathJoin_nil_cons (xs : List GoStr) : goPathJoin ([] :: xs) = goPathJoin xs := by
  simp [goPathJoin]

theorem goPathJoin_cons_ne (e : GoStr) (xs : List GoStr) (he : e ≠ []) :
    goPathJoin (e :: xs) = clean (goJoin '/' (e :: xs)) := by
  simp [goPathJoin, he]

theorem splitN_two_of_not_mem (sep : Char) : ∀ (s : GoStr), sep ∉ s → splitN sep 2 s = [s] := by
  intro s
  induction s with
  | nil => intro _; simp [splitN]
  | cons c rest ih =>
    intro h
    have hc : ¬ c = sep := fun hc => h (hc ▸ List.mem_cons_self c rest)
    have hr : sep ∉ rest := fun hr => h (List.mem_cons_of_mem c hr)
    simp only [splitN]
    rw [if_neg hc, ih hr]

theorem splitN_two_of_mem (sep : Char) : ∀ (s : GoStr), sep ∈ s →
    splitN sep 2 s =
      [s.takeWhile (fun c => !(c == sep)), ((s.dropWhile (fun c => !(c == sep))).tail)] := by
  intro s
  induction s with
  | nil => intro h; simp at h
  | cons c rest ih =>
    intro h
    by_cases hc : c = sep
    · subst hc
      simp only [splitN, if_pos rfl, List.takeWhile, List.dropWhile]
      simp [splitN]
    · have hr : sep ∈ rest := by
        rcases List.mem_cons.mp h with h' | h'
        · exact absurd h'.symm hc
        · exact h'
      simp only [splitN]
      rw [if_neg hc, ih hr]
      simp only [List.takeWhile, List.dropWhile]
      rw [show (!(c == sep)) = true by simp [hc]]

/-! ## Lemmas about headers, dispatch, and parsing inversion -/

theorem getHeader_setHeader_self (hs : Headers) (k v : GoStr) :
    getHeader (setHeader hs k v) k = some v := by
  simp [getHeader, setHeader]

theorem getHeader_setHeader_ne (hs : Headers) (k k' v : GoStr) (h : ¬ k' = k) :
    getHeader (setHeader hs k' v) k = getHeader hs k := by
  unfold getHeader setHeader
  rw [List.find?_cons_of_neg _ (by simp [h])]

theorem getHeader_addHeader_ne (hs : Headers) (k k' v : GoStr) (h : ¬ k' = k) :
    getHeader (addHeader hs k' v) k = getHeader hs k := by
  unfold getHeader addHeader
  rw [List.find?_cons_of_neg _ (by simp [h])]

theorem v1_serveGET (h : StorageHandler) (pth : GoStr) (a : Option (GoStr × GoStr)) :
    V1.ServeHTTP h ⟨.GET, pth, a⟩ =
      V1.handleGET h (setHeader [] "Access-Control-Allow-Origin".data "*".data)
        ⟨.GET, pth, a⟩ := rfl

theorem v1_serveHEAD (h : StorageHandler) (pth : GoStr) (a : Option (GoStr × GoStr)) :
    V1.ServeHTTP h ⟨.HEAD, pth, a⟩ =
      V1.handleHEAD h (setHeader [] "Access-Control-Allow-Origin".data "*".data)
        ⟨.HEAD, pth, a⟩ := rfl

theorem v2_serveGET (h : StorageHandler) (pth : GoStr) (a : Option (GoStr × GoStr)) :
    V2.ServeHTTP h ⟨.GET, pth, a⟩ =
      V2.handleGET h (setHeader [] "Access-Control-Allow-Origin".data "*".data)
        ⟨.GET, pth, a⟩ := rfl

theorem v2_serveHEAD (h : StorageHandler) (pth : GoStr) (a : Option (GoStr × GoStr)) :
    V2.ServeHTTP h ⟨.HEAD, pth, a⟩ =
      V2.handleHEAD h (setHeader [] "Access-Control-Allow-Origin".data "*".data)
        ⟨.HEAD, pth, a⟩ := rfl

theorem v2_parse_ok_inv {path : GoStr} {sf : StorageFile}
    (h : V2.getRequestFileID path = .ok sf) :
    splitN '/' 4 path = [sf.JobID, sf.TaskID, sf.NodeID, sf.Filename] ∧
    sf.JobID ≠ [] ∧ sf.TaskID ≠ [] ∧ sf.NodeID ≠ [] ∧ sf.Filename ≠ [] ∧
    extractTimestampFromFilename sf.Filename = .ok sf.Timestamp := by
  unfold V2.getRequestFileID at h
  split at h
  case h_2 => exact absurd h (by simp)
  case h_1 j t n f heq =>
    by_cases hj : j = []
    · rw [if_pos hj] at h; simp at h
    rw [if_neg hj] at h
    by_cases ht : t = []
    · rw [if_pos ht] at h; simp at h
    rw [if_neg ht] at h
    by_cases hn : n = []
    · rw [if_pos hn] at h; simp at h
    rw [if_neg hn] at h
    by_cases hf : f = []
    · rw [if_pos hf] at h; simp at h
    rw [if_neg hf] at h
    split at h
    next => simp at h
    next ts hts =>
      injection h with h'
      subst h'
      exact ⟨heq, hj, ht, hn, hf, hts⟩

theorem v1_parse_of_parts {path j t n f : GoStr} {ts : Int}
    (hs : splitN '/' 4 path = [j, t, n, f])
    (he : extractTimestampFromFilename f = .ok ts) :
    V1.getRequestFileID path = .ok ⟨j, t, n, f, ts⟩ := by
  unfold V1.getRequestFileID
  rw [hs]
  simp [he]

theorem v2_parse_of_parts {path j t n f : GoStr} {ts : Int}
    (hs : splitN '/' 4 path = [j, t, n, f])
    (hj : j ≠ []) (ht : t ≠ []) (hn : n ≠ []) (hf : f ≠ [])
    (he : extractTimestampFromFilename f = .ok ts) :
    V2.getRequestFileID path = .ok ⟨j, t, n, f, ts⟩ := by
  unfold V2.getRequestFileID
  rw [hs]
  simp [hj, ht, hn, hf, he]

theorem v2_ok_imp_v1 {path : GoStr} {sf : StorageFile}
    (h : V2.getRequestFileID path = .ok sf) : V1.getRequestFileID path = .ok sf := by
  obtain ⟨hs, _, _, _, _, he⟩ := v2_parse_ok_inv h
  exact v1_parse_of_parts hs he

/-! ## Concrete fixtures used by witnesses and counterexamples -/

/-- A backend on which every call succeeds (mirrors the mock client of
the test file). -/
def okBackend : S3Backend :=
  ⟨fun _ _ => .ok ⟨some 22, some "klingon".data⟩,
   fun _ _ => .ok ⟨"I am fake file content".data, some 22⟩,
   fun _ _ => .ok "https://storage.example/presigned".data⟩

/-- The AWS error S3 reports for a missing key. -/
def noSuchKeyErr : S3Err := .aws ⟨"NoSuchKey".data, "The specified key does not exist.".data⟩

/-- A backend on which every fetch fails with `NoSuchKey`. -/
def notFoundBackend : S3Backend :=
  ⟨fun _ _ => .error noSuchKeyErr,
   fun _ _ => .error noSuchKeyErr,
   fun _ _ => .ok "https://storage.example/presigned".data⟩

/-- An AWS error that is not a not-found condition. -/
def deniedErr : S3Err := .aws ⟨"AccessDenied".data, "Access Denied".data⟩

/-- A backend on which every fetch fails with `AccessDenied`. -/
def deniedBackend : S3Backend :=
  ⟨fun _ _ => .error deniedErr,
   fun _ _ => .error deniedErr,
   fun _ _ => .ok "https://storage.example/presigned".data⟩

/-- A policy that authorizes every request (every file public). -/
def allowAll : StorageFile → GoStr → GoStr → Bool → Bool := fun _ _ _ _ => true

/-- A policy that rejects every request. -/
def denyAll : StorageFile → GoStr → GoStr → Bool → Bool := fun _ _ _ _ => false

def okHandler : StorageHandler := ⟨okBackend, "sage".data, [], allowAll⟩

def notFoundHandler : StorageHandler := ⟨notFoundBackend, "sage".data, [], allowAll⟩

def deniedHandler : StorageHandler := ⟨deniedBackend, "sage".data, [], allowAll⟩

def denyHandler : StorageHandler := ⟨okBackend, "sage".data, [], denyAll⟩

example : V1.getRequestFileID "j/t/n/1-x".data = .ok ⟨"j".data, "t".data, "n".data, "1-x".data, 1⟩ := by decide
example : V2.getRequestFileID "j/t/n/1-x".data = .ok ⟨"j".data, "t".data, "n".data, "1-x".data, 1⟩ := by decide
example : V1.getRequestFileID "/t/n/1-x".data = .ok ⟨[], "t".data, "n".data, "1-x".data, 1⟩ := by decide
example : V2.getRequestFileID "/t/n/1-x".data = .error .emptyJob := by decide
example : (V1.ServeHTTP notFoundHandler ⟨.GET, "j/t/n/1-x".data, none⟩).status = 500 := by decide
example : (V2.ServeHTTP okHandler ⟨.GET, "j/t/n/1-x".data, none⟩).status = 307 := by decide
example : (V1.ServeHTTP denyHandler ⟨.GET, "j/t/n/1-x".data, none⟩).status = 401 := by decide
example : (V1.ServeHTTP okHandler ⟨.HEAD, "j/t/n/1-x".data, none⟩).status = 200 := by decide
example : (V2.ServeHTTP okHandler ⟨.OPTIONS, "j/t/n/1-x".data, none⟩).status = 200 := by decide
example : (V1.ServeHTTP okHandler ⟨.other "PUT".data, "j/t/n/1-x".data, none⟩).status = 405 := by decide

/-! ## Response characterization lemmas -/

theorem v1_handleGET_unauth (h : StorageHandler) (hdrs : Headers) (r : Request)
    (sf : StorageFile) (u p : GoStr) (ha : Bool)
    (hparse : V1.getRequestFileID r.path = .ok sf)
    (hba : r.BasicAuth = (u, p, ha))
    (hauth : h.Authenticator sf u p ha = false) :
    V1.handleGET h hdrs r =
      respondJSONError
        (setHeader hdrs "WWW-Authenticate".data "Basic domain=storage.sagecontinuum.org".data)
        401 "not authorized".data := by
  unfold V1.handleGET
  rw [hparse, hba]
  simp [hauth]

theorem v2_handleGET_unauth (h : StorageHandler) (hdrs : Headers) (r : Request)
    (sf : StorageFile) (u p : GoStr) (ha : Bool)
    (hparse : V2.getRequestFileID r.path = .ok sf)
    (hba : r.BasicAuth = (u, p, ha))
    (hauth : h.Authenticator sf u p ha = false) :
    V2.handleGET h hdrs r =
      respondJSONError
        (setHeader hdrs "WWW-Authenticate".data "Basic domain=storage.sagecontinuum.org".data)
        401 "not authorized".data := by
  unfold V2.handleGET V2.handleAuth
  rw [hparse, hba]
  simp [hauth]

/-! ## Claims -/

/-- C2: for every request path and every pair of credential inputs
(including absent credentials), the HEAD handler produces the same
response: `handleHEAD` never invokes the authorizer (the response is
invariant under replacing the `Authenticator` function) and its outcome
does not depend on the supplied username, password, or presence of
Basic-Auth credentials.  This holds in both variants, both for the
handler functions and through `ServeHTTP` dispatch. -/
theorem C2_head_ignores_credentials (s3 : S3Backend) (bucket root : GoStr)
    (auth auth' : StorageFile → GoStr → GoStr → Bool → Bool) (hdrs : Headers)
    (m m' : Method) (pth : GoStr) (a a' : Option (GoStr × GoStr)) :
    V1.handleHEAD ⟨s3, bucket, root, auth⟩ hdrs ⟨m, pth, a⟩ =
      V1.handleHEAD ⟨s3, bucket, root, auth'⟩ hdrs ⟨m', pth, a'⟩ ∧
    V2.handleHEAD ⟨s3, bucket, root, auth⟩ hdrs ⟨m, pth, a⟩ =
      V2.handleHEAD ⟨s3, bucket, root, auth'⟩ hdrs ⟨m', pth, a'⟩ ∧
    V1.ServeHTTP ⟨s3, bucket, root, auth⟩ ⟨.HEAD, pth, a⟩ =
      V1.ServeHTTP ⟨s3, bucket, root, auth'⟩ ⟨.HEAD, pth, a'⟩ ∧
    V2.ServeHTTP ⟨s3, bucket, root, auth⟩ ⟨.HEAD, pth, a⟩ =
      V2.ServeHTTP ⟨s3, bucket, root, auth'⟩ ⟨.HEAD, pth, a'⟩ :=
  ⟨rfl, rfl, rfl, rfl⟩

/-- C3: for every GET request whose path parses successfully but whose
authorizer rejects the request's credentials, both variants respond
401, set a `WWW-Authenticate` header whose value begins with `Basic`,
emit the JSON body with error message `not authorized`, and perform no
backend call: the response is unchanged when the whole backend is
replaced. -/
theorem C3_unauthorized_get (s3 s3' : S3Backend) (bucket root : GoStr)
    (auth : StorageFile → GoStr → GoStr → Bool → Bool)
    (pth : GoStr) (a : Option (GoStr × GoStr)) (sf : StorageFile)
    (u p : GoStr) (ha : Bool)
    (hparse : V2.getRequestFileID pth = .ok sf)
    (hba : Request.BasicAuth ⟨.GET, pth, a⟩ = (u, p, ha))
    (hauth : auth sf u p ha = false) :
    (V1.ServeHTTP ⟨s3, bucket, root, auth⟩ ⟨.GET, pth, a⟩).status = 401 ∧
    (V2.ServeHTTP ⟨s3, bucket, root, auth⟩ ⟨.GET, pth, a⟩).status = 401 ∧
    (∃ v, getHeader (V1.ServeHTTP ⟨s3, bucket, root, auth⟩ ⟨.GET, pth, a⟩).headers
        "WWW-Authenticate".data = some v ∧ "Basic".data <+: v) ∧
    (∃ v, getHeader (V2.ServeHTTP ⟨s3, bucket, root, auth⟩ ⟨.GET, pth, a⟩).headers
        "WWW-Authenticate".data = some v ∧ "Basic".data <+: v) ∧
    (V1.ServeHTTP ⟨s3, bucket, root, auth⟩ ⟨.GET, pth, a⟩).body =
      .jsonError "not authorized".data ∧
    (V2.ServeHTTP ⟨s3, bucket, root, auth⟩ ⟨.GET, pth, a⟩).body =
      .jsonError "not authorized".data ∧
    V1.ServeHTTP ⟨s3', bucket, root, auth⟩ ⟨.GET, pth, a⟩ =
      V1.ServeHTTP ⟨s3, bucket, root, auth⟩ ⟨.GET, pth, a⟩ ∧
    V2.ServeHTTP ⟨s3', bucket, root, auth⟩ ⟨.GET, pth, a⟩ =
      V2.ServeHTTP ⟨s3, bucket, root, auth⟩ ⟨.GET, pth, a⟩ := by
  have hp1 : V1.getRequestFileID (⟨.GET, pth, a⟩ : Request).path = .ok sf :=
    v2_ok_imp_v1 hparse
  have hp2 : V2.getRequestFileID (⟨.GET, pth, a⟩ : Request).path = .ok sf := hparse
  have e1 := v1_handleGET_unauth ⟨s3, bucket, root, auth⟩
    (setHeader [] "Access-Control-Allow-Origin".data "*".data) ⟨.GET, pth, a⟩ sf u p ha
    hp1 hba hauth
  have e1' := v1_handleGET_unauth ⟨s3', bucket, root, auth⟩
    (setHeader [] "Access-Control-Allow-Origin".data "*".data) ⟨.GET, pth, a⟩ sf u p ha
    hp1 hba hauth
  have e2 := v2_handleGET_unauth ⟨s3, bucket, root, auth⟩
    (setHeader [] "Access-Control-Allow-Origin".data "*".data) ⟨.GET, pth, a⟩ sf u p ha
    hp2 hba hauth
  have e2' := v2_handleGET_unauth ⟨s3', bucket, root, auth⟩
    (setHeader [] "Access-Control-Allow-Origin".data "*".data) ⟨.GET, pth, a⟩ sf u p ha
    hp2 hba hauth
  rw [v1_serveGET, v2_serveGET, e1, e2]
  refine ⟨rfl, rfl, ?_, ?_, rfl, rfl, by rw [v1_serveGET, e1'], by rw [v2_serveGET, e2']⟩
  · refine ⟨"Basic domain=storage.sagecontinuum.org".data, ?_, by decide⟩
    rw [show (respondJSONError
        (setHeader (setHeader [] "Access-Control-Allow-Origin".data "*".data)
          "WWW-Authenticate".data "Basic domain=storage.sagecontinuum.org".data)
        401 "not authorized".data).headers =
      setHeader (setHeader (setHeader [] "Access-Control-Allow-Origin".data "*".data)
          "WWW-Authenticate".data "Basic domain=storage.sagecontinuum.org".data)
        "Content-Type".data "application/json".data from rfl]
    rw [getHeader_setHeader_ne _ _ _ _ (by decide)]
    exact getHeader_setHeader_self _ _ _
  · refine ⟨"Basic domain=storage.sagecontinuum.org".data, ?_, by decide⟩
    rw [show (respondJSONError
        (setHeader (setHeader [] "Access-Control-Allow-Origin".data "*".data)
          "WWW-Authenticate".data "Basic domain=storage.sagecontinuum.org".data)
        401 "not authorized".data).headers =
      setHeader (setHeader (setHeader [] "Access-Control-Allow-Origin".data "*".data)
          "WWW-Authenticate".data "Basic domain=storage.sagecontinuum.org".data)
        "Content-Type".data "application/json".data from rfl]
    rw [getHeader_setHeader_ne _ _ _ _ (by decide)]
    exact getHeader_setHeader_self _ _ _

/-- Witness for C3 at a concrete input: a deny-all policy on a parsed
path yields the 401 outcome in both variants. -/
theorem C3_unauthorized_get_witness :
    (V1.ServeHTTP ⟨okBackend, "sage".data, [], denyAll⟩ ⟨.GET, "j/t/n/1-x".data, none⟩).status
      = 401 :=
  (C3_unauthorized_get okBackend notFoundBackend "sage".data [] denyAll
    "j/t/n/1-x".data none ⟨"j".data, "t".data, "n".data, "1-x".data, 1⟩ [] [] false
    (by rfl) (by rfl) (by rfl)).1

/-! ## Access-Control-Allow-Origin preservation -/

theorem acao_respondJSONError (hdrs : Headers) (st : Nat) (m : GoStr) :
    getHeader (respondJSONError hdrs st m).headers "Access-Control-Allow-Origin".data =
      getHeader hdrs "Access-Control-Allow-Origin".data := by
  show getHeader (setHeader hdrs "Content-Type".data "application/json".data)
      "Access-Control-Allow-Origin".data = _
  exact getHeader_setHeader_ne _ _ _ _ (by decide)

theorem acao_respondJSONParseError (hdrs : Headers) (st : Nat) (e : ParseErr) :
    getHeader (respondJSONParseError hdrs st e).headers "Access-Control-Allow-Origin".data =
      getHeader hdrs "Access-Control-Allow-Origin".data := by
  show getHeader (setHeader hdrs "Content-Type".data "application/json".data)
      "Access-Control-Allow-Origin".data = _
  exact getHeader_setHeader_ne _ _ _ _ (by decide)

theorem acao_respondJSON (hdrs : Headers) (st : Nat) (m : HeadObjectOutput) :
    getHeader (respondJSON hdrs st m).headers "Access-Control-Allow-Origin".data =
      getHeader hdrs "Access-Control-Allow-Origin".data := by
  show getHeader (setHeader hdrs "Content-Type".data "application/json".data)
      "Access-Control-Allow-Origin".data = _
  exact getHeader_setHeader_ne _ _ _ _ (by decide)

theorem acao_httpError (hdrs : Headers) (st : Nat) (m : GoStr) :
    getHeader (httpError hdrs st m).headers "Access-Control-Allow-Origin".data =
      getHeader hdrs "Access-Control-Allow-Origin".data := by
  show getHeader (setHeader (setHeader hdrs "Content-Type".data "text/plain; charset=utf-8".data)
      "X-Content-Type-Options".data "nosniff".data) "Access-Control-Allow-Origin".data = _
  rw [getHeader_setHeader_ne _ _ _ _ (by decide)]
  exact getHeader_setHeader_ne _ _ _ _ (by decide)

theorem acao_setCL (hdrs : Headers) (v : GoStr) :
    getHeader (setHeader hdrs "Content-Length".data v) "Access-Control-Allow-Origin".data =
      getHeader hdrs "Access-Control-Allow-Origin".data :=
  getHeader_setHeader_ne _ _ _ _ (by decide)

theorem acao_addCL (hdrs : Headers) (v : GoStr) :
    getHeader (addHeader hdrs "Content-Length".data v) "Access-Control-Allow-Origin".data =
      getHeader hdrs "Access-Control-Allow-Origin".data :=
  getHeader_addHeader_ne _ _ _ _ (by decide)

theorem acao_setCD (hdrs : Headers) (v : GoStr) :
    getHeader (setHeader hdrs "Content-Disposition".data v) "Access-Control-Allow-Origin".data =
      getHeader hdrs "Access-Control-Allow-Origin".data :=
  getHeader_setHeader_ne _ _ _ _ (by decide)

theorem acao_setWA (hdrs : Headers) (v : GoStr) :
    getHeader (setHeader hdrs "WWW-Authenticate".data v) "Access-Control-Allow-Origin".data =
      getHeader hdrs "Access-Control-Allow-Origin".data :=
  getHeader_setHeader_ne _ _ _ _ (by decide)

theorem acao_setLocation (hdrs : Headers) (v : GoStr) :
    getHeader (setHeader hdrs "Location".data v) "Access-Control-Allow-Origin".data =
      getHeader hdrs "Access-Control-Allow-Origin".data :=
  getHeader_setHeader_ne _ _ _ _ (by decide)

theorem acao_handleS3Error (hdrs : Headers) (err : S3Err) :
    getHeader (V2.handleS3Error hdrs err).headers "Access-Control-Allow-Origin".data =
      getHeader hdrs "Access-Control-Allow-Origin".data := by
  unfold V2.handleS3Error
  cases err <;> (dsimp only; repeat' split) <;> exact acao_respondJSONError _ _ _

theorem v1_handleHEAD_acao (h : StorageHandler) (hdrs : Headers) (r : Request) :
    getHeader (V1.handleHEAD h hdrs r).headers "Access-Control-Allow-Origin".data =
      getHeader hdrs "Access-Control-Allow-Origin".data := by
  unfold V1.handleHEAD
  split
  · exact acao_respondJSONParseError _ _ _
  · dsimp only
    split
    · split
      · split
        · exact acao_respondJSONError _ _ _
        · split
          · exact acao_respondJSONError _ _ _
          · exact acao_respondJSONError _ _ _
      · exact acao_respondJSONError _ _ _
    · split
      · rw [acao_respondJSON, acao_addCL]
      · rw [acao_respondJSON]

theorem v1_handleGET_acao (h : StorageHandler) (hdrs : Headers) (r : Request) :
    getHeader (V1.handleGET h hdrs r).headers "Access-Control-Allow-Origin".data =
      getHeader hdrs "Access-Control-Allow-Origin".data := by
  unfold V1.handleGET
  split
  · exact acao_respondJSONParseError _ _ _
  · dsimp only
    split
    · rw [acao_respondJSONError, acao_setWA]
    · split
      · exact acao_respondJSONError _ _ _
      · dsimp only
        split
        · rw [acao_setCL, acao_setCD]
        · rw [acao_setCD]

theorem v2_handleHEAD_acao (h : StorageHandler) (hdrs : Headers) (r : Request) :
    getHeader (V2.handleHEAD h hdrs r).headers "Access-Control-Allow-Origin".data =
      getHeader hdrs "Access-Control-Allow-Origin".data := by
  unfold V2.handleHEAD
  split
  · exact acao_respondJSONParseError _ _ _
  · split
    · exact acao_handleS3Error _ _
    · dsimp only
      split
      · rw [acao_addCL, acao_setCD]
      · rw [acao_setCD]

theorem v2_handleGET_acao (h : StorageHandler) (hdrs : Headers) (r : Request) :
    getHeader (V2.handleGET h hdrs r).headers "Access-Control-Allow-Origin".data =
      getHeader hdrs "Access-Control-Allow-Origin".data := by
  unfold V2.handleGET
  split
  · exact acao_respondJSONParseError _ _ _
  · split
    · next resp heq =>
      have h1 : resp = respondJSONError
          (setHeader hdrs "WWW-Authenticate".data
            "Basic domain=storage.sagecontinuum.org".data) 401 "not authorized".data := by
        unfold V2.handleAuth at heq
        dsimp only at heq
        split at heq
        · simp at heq
        · injection heq with h'
          exact h'.symm
      rw [h1, acao_respondJSONError, acao_setWA]
    · dsimp only
      split
      · exact acao_httpError _ _ _
      · dsimp only
        rw [acao_setLocation, acao_setCD]

/-- C9: every response, for every method (including OPTIONS and
unsupported methods) and every outcome, carries the header
`Access-Control-Allow-Origin: *`, in both variants. -/
theorem C9_acao_always (h : StorageHandler) (r : Request) :
    getHeader (V1.ServeHTTP h r).headers "Access-Control-Allow-Origin".data =
      some "*".data ∧
    getHeader (V2.ServeHTTP h r).headers "Access-Control-Allow-Origin".data =
      some "*".data := by
  obtain ⟨m, pth, a⟩ := r
  have hbase : getHeader (setHeader [] "Access-Control-Allow-Origin".data "*".data)
      "Access-Control-Allow-Origin".data = some "*".data :=
    getHeader_setHeader_self _ _ _
  constructor
  · cases m with
    | GET => rw [v1_serveGET, v1_handleGET_acao]; exact hbase
    | HEAD => rw [v1_serveHEAD, v1_handleHEAD_acao]; exact hbase
    | OPTIONS => exact hbase
    | other nm =>
      show getHeader (httpError (setHeader [] "Access-Control-Allow-Origin".data "*".data)
        405 "Method Not Allowed".data).headers "Access-Control-Allow-Origin".data = _
      rw [acao_httpError]; exact hbase
  · cases m with
    | GET => rw [v2_serveGET, v2_handleGET_acao]; exact hbase
    | HEAD => rw [v2_serveHEAD, v2_handleHEAD_acao]; exact hbase
    | OPTIONS => exact hbase
    | other nm =>
      show getHeader (httpError (setHeader [] "Access-Control-Allow-Origin".data "*".data)
        405 "Method Not Allowed".data).headers "Access-Control-Allow-Origin".data = _
      rw [acao_httpError]; exact hbase

/-! ## Parse-failure responses -/

theorem v1_handleGET_parse_err (h : StorageHandler) (hdrs : Headers) (r : Request)
    {e : ParseErr} (hp : V1.getRequestFileID r.path = .error e) :
    V1.handleGET h hdrs r = respondJSONParseError hdrs 400 e := by
  unfold V1.handleGET
  rw [hp]

theorem v1_handleHEAD_parse_err (h : StorageHandler) (hdrs : Headers) (r : Request)
    {e : ParseErr} (hp : V1.getRequestFileID r.path = .error e) :
    V1.handleHEAD h hdrs r = respondJSONParseError hdrs 400 e := by
  unfold V1.handleHEAD
  rw [hp]

theorem v2_handleGET_parse_err (h : StorageHandler) (hdrs : Headers) (r : Request)
    {e : ParseErr} (hp : V2.getRequestFileID r.path = .error e) :
    V2.handleGET h hdrs r = respondJSONParseError hdrs 400 e := by
  unfold V2.handleGET
  rw [hp]

theorem v2_handleHEAD_parse_err (h : StorageHandler) (hdrs : Headers) (r : Request)
    {e : ParseErr} (hp : V2.getRequestFileID r.path = .error e) :
    V2.handleHEAD h hdrs r = respondJSONParseError hdrs 400 e := by
  unfold V2.handleHEAD
  rw [hp]

theorem v1_parse_len {path : GoStr} (hl : (splitN '/' 4 path).length ≠ 4) :
    V1.getRequestFileID path = .error .invalidPath := by
  unfold V1.getRequestFileID
  split
  next j t n f heq => exact absurd (by rw [heq]; rfl) hl
  next => rfl

theorem v2_parse_len {path : GoStr} (hl : (splitN '/' 4 path).length ≠ 4) :
    V2.getRequestFileID path = .error .invalidPath := by
  unfold V2.getRequestFileID
  split
  next j t n f heq => exact absurd (by rw [heq]; rfl) hl
  next => rfl

theorem parseNano_ok_iff (p : GoStr) (nn : Int) :
    parseNanosecondTimestamp p = .ok nn ↔ parseInt64 p = some nn := by
  unfold parseNanosecondTimestamp
  cases hp : parseInt64 p <;> simp

/-- C5: for every filename segment, if it contains no `-` the parser
fails with the malformed-filename error; otherwise, with `p` the
substring up to the first `-`, extraction succeeds with value `nn` iff
`p` parses as a base-10 signed 64-bit integer `nn`
(`strconv.ParseInt(p, 10, 64)`, modelled by `parseInt64`); a filename
starting with `-` (empty `p`) never succeeds; and on a successful
request parse the identity's `Timestamp` is exactly the extracted
nanosecond count. -/
theorem C5_timestamp_extraction (s : GoStr) :
    ('-' ∉ s → extractTimestampFromFilename s = .error .malformedFilename) ∧
    ('-' ∈ s → ∀ nn : Int,
      (extractTimestampFromFilename s = .ok nn ↔
        parseInt64 (s.takeWhile (fun c => !(c == '-'))) = some nn)) ∧
    (∀ r, s = '-' :: r → ∀ nn : Int, extractTimestampFromFilename s ≠ .ok nn) ∧
    (∀ (path : GoStr) (sf : StorageFile), V2.getRequestFileID path = .ok sf →
      extractTimestampFromFilename sf.Filename = .ok sf.Timestamp) := by
  refine ⟨?_, ?_, ?_, ?_⟩
  · intro hnm
    unfold extractTimestampFromFilename
    rw [splitN_two_of_not_mem '-' s hnm]
  · intro hm nn
    unfold extractTimestampFromFilename
    rw [splitN_two_of_mem '-' s hm]
    exact parseNano_ok_iff _ nn
  · intro r hr nn
    subst hr
    have hm : '-' ∈ '-' :: r := List.mem_cons_self _ _
    intro hok
    have h2 := (extractTimestampFromFilename ('-' :: r) = .ok nn)
    have htw : (('-' :: r).takeWhile (fun c => !(c == '-'))) = [] := by
      simp [List.takeWhile]
    have := ((by
      unfold extractTimestampFromFilename
      rw [splitN_two_of_mem '-' ('-' :: r) hm]
      exact parseNano_ok_iff _ nn :
        extractTimestampFromFilename ('-' :: r) = .ok nn ↔
          parseInt64 (('-' :: r).takeWhile (fun c => !(c == '-'))) = some nn)).mp hok
    rw [htw] at this
    simp [parseInt64] at this
  · intro path sf hp
    exact (v2_parse_ok_inv hp).2.2.2.2.2

/-- Witness for C5: concrete evaluations through the theorem — a
dashed filename with numeric prefix extracts its value, and a dashless
one fails. -/
theorem C5_timestamp_extraction_witness :
    extractTimestampFromFilename "123-x".data = .ok 123 ∧
    extractTimestampFromFilename "nodash".data = .error .malformedFilename :=
  ⟨((C5_timestamp_extraction "123-x".data).2.1 (by decide) 123).mpr (by decide),
   (C5_timestamp_extraction "nodash".data).1 (by decide)⟩

/-- C4 counterexample: the claim asserts that parsing fails (and GET
and HEAD respond 400) whenever a segment is empty, for every handler.
The streaming variant parses a path with an empty job segment
successfully and its HEAD handler serves it with 200. -/
theorem C4_counterexample :
    V1.getRequestFileID "/t/n/1-x".data =
      .ok ⟨[], "t".data, "n".data, "1-x".data, 1⟩ ∧
    (V1.ServeHTTP okHandler ⟨.HEAD, "/t/n/1-x".data, none⟩).status = 200 :=
  ⟨by decide, by decide⟩

/-- C4 (amended): over `SplitN(path, "/", 4)`, if the part count is
not four, both parsers fail (and the handlers respond 400, last
conjuncts); given four parts, the presign variant fails whenever any
part is empty and succeeds on four non-empty parts with a well-formed
filename; the streaming variant checks only the part count and the
filename, accepting empty job/task/node segments. -/
theorem C4_parse_characterization (path : GoStr) :
    ((splitN '/' 4 path).length ≠ 4 →
       V2.getRequestFileID path = .error .invalidPath ∧
       V1.getRequestFileID path = .error .invalidPath) ∧
    (∀ j t n f, splitN '/' 4 path = [j, t, n, f] →
       ((j = [] ∨ t = [] ∨ n = [] ∨ f = []) →
          ∃ e, V2.getRequestFileID path = .error e) ∧
       (j ≠ [] → t ≠ [] → n ≠ [] → f ≠ [] →
          ∀ ts, extractTimestampFromFilename f = .ok ts →
            V2.getRequestFileID path = .ok ⟨j, t, n, f, ts⟩) ∧
       (∀ ts, extractTimestampFromFilename f = .ok ts →
          V1.getRequestFileID path = .ok ⟨j, t, n, f, ts⟩)) ∧
    (∀ e, V2.getRequestFileID path = .error e →
       ∀ (h : StorageHandler) (a : Option (GoStr × GoStr)),
         (V2.ServeHTTP h ⟨.GET, path, a⟩).status = 400 ∧
         (V2.ServeHTTP h ⟨.HEAD, path, a⟩).status = 400) ∧
    (∀ e, V1.getRequestFileID path = .error e →
       ∀ (h : StorageHandler) (a : Option (GoStr × GoStr)),
         (V1.ServeHTTP h ⟨.GET, path, a⟩).status = 400 ∧
         (V1.ServeHTTP h ⟨.HEAD, path, a⟩).status = 400) := by
  refine ⟨fun hl => ⟨v2_parse_len hl, v1_parse_len hl⟩, ?_, ?_, ?_⟩
  · intro j t n f hs
    refine ⟨?_, ?_, ?_⟩
    · intro hemp
      unfold V2.getRequestFileID
      rw [hs]
      rcases hemp with he | he | he | he
      · exact ⟨.emptyJob, by simp [he]⟩
      · by_cases hj : j = []
        · exact ⟨.emptyJob, by simp [hj]⟩
        · exact ⟨.emptyTask, by simp [hj, he]⟩
      · by_cases hj : j = []
        · exact ⟨.emptyJob, by simp [hj]⟩
        · by_cases ht : t = []
          · exact ⟨.emptyTask, by simp [hj, ht]⟩
          · exact ⟨.emptyNode, by simp [hj, ht, he]⟩
      · by_cases hj : j = []
        · exact ⟨.emptyJob, by simp [hj]⟩
        · by_cases ht : t = []
          · exact ⟨.emptyTask, by simp [hj, ht]⟩
          · by_cases hn : n = []
            · exact ⟨.emptyNode, by simp [hj, ht, hn]⟩
            · exact ⟨.emptyFilename, by simp [hj, ht, hn, he]⟩
    · intro hj ht hn hf ts he
      exact v2_parse_of_parts hs hj ht hn hf he
    · intro ts he
      exact v1_parse_of_parts hs he
  · intro e hp h a
    constructor
    · rw [v2_serveGET, v2_handleGET_parse_err h _ _ hp]; rfl
    · rw [v2_serveHEAD, v2_handleHEAD_parse_err h _ _ hp]; rfl
  · intro e hp h a
    constructor
    · rw [v1_serveGET, v1_handleGET_parse_err h _ _ hp]; rfl
    · rw [v1_serveHEAD, v1_handleHEAD_parse_err h _ _ hp]; rfl

/-- Witness for C4 at concrete inputs: a two-segment path fails in
both variants; a full four-segment path parses in the presign
variant. -/
theorem C4_parse_characterization_witness :
    V2.getRequestFileID "a/b".data = .error .invalidPath ∧
    V2.getRequestFileID "j/t/n/1-x".data =
      .ok ⟨"j".data, "t".data, "n".data, "1-x".data, 1⟩ :=
  ⟨((C4_parse_characterization "a/b".data).1 (by decide)).1,
   ((C4_parse_characterization "j/t/n/1-x".data).2.1 "j".data "t".data "n".data "1-x".data
      (by decide)).2.1 (by decide) (by decide) (by decide) (by decide) 1 (by decide)⟩

/-- C6 counterexample: the claim asserts `keyFor(parse(path), "") ==
path` for every parsed four-segment path with a well-formed filename.
The path `./t/n/1-x` parses in both variants (`.` is a non-empty
segment), yet `path.Join` applies `path.Clean`, which drops the `.`
component: the key is `t/n/1-x`, not the original path. -/
theorem C6_counterexample :
    V2.getRequestFileID "./t/n/1-x".data =
      .ok ⟨".".data, "t".data, "n".data, "1-x".data, 1⟩ ∧
    s3KeyForFileID ⟨okBackend, "sage".data, [], allowAll⟩
      ⟨".".data, "t".data, "n".data, "1-x".data, 1⟩ = "t/n/1-x".data ∧
    "t/n/1-x".data ≠ "./t/n/1-x".data :=
  ⟨by decide, by decide, by decide⟩

/-- Core of the round-trip property: under `Clean`-neutral components
and an empty root folder, the key equals the original path. -/
theorem key_roundtrip_core (path : GoStr) (sf : StorageFile) (h : StorageHandler)
    (hgood : ∀ c ∈ splitFull '/' path, goodComp c)
    (hroot : h.S3RootFolder = [])
    (hparse : V2.getRequestFileID path = .ok sf) :
    s3KeyForFileID h sf = path := by
  obtain ⟨hs, hj, _, _, _, _⟩ := v2_parse_ok_inv hparse
  unfold s3KeyForFileID
  rw [hroot, goPathJoin_nil_cons, goPathJoin_cons_ne _ _ hj]
  have hjoin : goJoin '/' [sf.JobID, sf.TaskID, sf.NodeID, sf.Filename] = path := by
    rw [← hs]
    exact goJoin_splitN '/' 3 path
  rw [hjoin]
  exact clean_fixed path hgood

/-- C6 (amended): for every four-segment path with a well-formed
filename, none of whose slash-separated components is empty, `.`, or
`..` (so that the structural join is `Clean`-neutral), parsing
succeeds in both variants and the key mapper with an empty root folder
round-trips: `keyFor(parse(path), "") = path`. -/
theorem C6_key_roundtrip (path : GoStr) (sf : StorageFile) (h : StorageHandler)
    (hgood : ∀ c ∈ splitFull '/' path, goodComp c)
    (hroot : h.S3RootFolder = [])
    (hparse : V2.getRequestFileID path = .ok sf) :
    s3KeyForFileID h sf = path ∧ V1.getRequestFileID path = .ok sf := by
  obtain ⟨hs, _, _, _, _, he⟩ := v2_parse_ok_inv hparse
  exact ⟨key_roundtrip_core path sf h hgood hroot hparse, v1_parse_of_parts hs he⟩

/-- Witness for C6 at a concrete input: the canonical four-segment
path round-trips through parse and the key mapper. -/
theorem C6_key_roundtrip_witness :
    s3KeyForFileID ⟨okBackend, "sage".data, [], allowAll⟩
      ⟨"j".data, "t".data, "n".data, "1-x".data, 1⟩ = "j/t/n/1-x".data :=
  (C6_key_roundtrip "j/t/n/1-x".data ⟨"j".data, "t".data, "n".data, "1-x".data, 1⟩
    ⟨okBackend, "sage".data, [], allowAll⟩ (by decide) rfl (by decide)).1

/-! ## GET success-path characterizations -/

theorem v1_handleGET_ok (h : StorageHandler) (hdrs : Headers) (r : Request)
    (sf : StorageFile) (u p : GoStr) (ha : Bool) (out : GetObjectOutput)
    (hparse : V1.getRequestFileID r.path = .ok sf)
    (hba : r.BasicAuth = (u, p, ha))
    (hauth : h.Authenticator sf u p ha = true)
    (hout : h.S3API.getObject h.S3Bucket (s3KeyForFileID h sf) = .ok out) :
    V1.handleGET h hdrs r =
      ⟨200,
        (match out.ContentLength with
         | some cl =>
           setHeader (setHeader hdrs "Content-Disposition".data
             ("attachment; filename=".data ++ sf.Filename)) "Content-Length".data (formatInt cl)
         | none =>
           setHeader hdrs "Content-Disposition".data
             ("attachment; filename=".data ++ sf.Filename)),
        .stream out.ObjectBody⟩ := by
  unfold V1.handleGET
  rw [hparse, hba]
  simp [hauth, hout]

theorem v1_handleGET_backend_err (h : StorageHandler) (hdrs : Headers) (r : Request)
    (sf : StorageFile) (u p : GoStr) (ha : Bool) (err : S3Err)
    (hparse : V1.getRequestFileID r.path = .ok sf)
    (hba : r.BasicAuth = (u, p, ha))
    (hauth : h.Authenticator sf u p ha = true)
    (herr : h.S3API.getObject h.S3Bucket (s3KeyForFileID h sf) = .error err) :
    V1.handleGET h hdrs r =
      respondJSONError hdrs 500
        ("Error getting data, GetObject returned: ".data ++ err.errorString) := by
  unfold V1.handleGET
  rw [hparse, hba]
  simp [hauth, herr]

theorem v2_handleGET_ok (h : StorageHandler) (hdrs : Headers) (r : Request)
    (sf : StorageFile) (u p : GoStr) (ha : Bool) (url : GoStr)
    (hparse : V2.getRequestFileID r.path = .ok sf)
    (hba : r.BasicAuth = (u, p, ha))
    (hauth : h.Authenticator sf u p ha = true)
    (hurl : h.S3API.presign h.S3Bucket (s3KeyForFileID h sf) = .ok url) :
    V2.handleGET h hdrs r =
      ⟨307,
        setHeader (setHeader hdrs "Content-Disposition".data
          ("attachment; filename=".data ++ sf.Filename)) "Location".data url,
        .redirect url⟩ := by
  unfold V2.handleGET V2.handleAuth
  rw [hparse, hba]
  simp [hauth, hurl]

/-- C10: for every successfully parsed request, the identity's
`Filename` field is the entire fourth path segment, including the
numeric timestamp prefix and its dash; the backend key is the join of
the root folder with the segments ending in that full segment (and for
`Clean`-neutral paths with an empty root folder, the key ends with the
full segment); and in both variants a successful GET carries
`Content-Disposition: attachment; filename=<full segment>` — the
prefix is never stripped. -/
theorem C10_full_filename_everywhere (h : StorageHandler) (pth : GoStr)
    (a : Option (GoStr × GoStr)) (sf : StorageFile) (j t n f u p : GoStr) (ha : Bool)
    (hs : splitN '/' 4 pth = [j, t, n, f])
    (hparse : V2.getRequestFileID pth = .ok sf)
    (hba : Request.BasicAuth ⟨.GET, pth, a⟩ = (u, p, ha))
    (hauth : h.Authenticator sf u p ha = true) :
    sf.Filename = f ∧
    s3KeyForFileID h sf = goPathJoin [h.S3RootFolder, j, t, n, f] ∧
    (h.S3RootFolder = [] → (∀ c ∈ splitFull '/' pth, goodComp c) →
       s3KeyForFileID h sf = pth ∧ f <:+ pth) ∧
    (∀ out, h.S3API.getObject h.S3Bucket (s3KeyForFileID h sf) = .ok out →
       getHeader (V1.ServeHTTP h ⟨.GET, pth, a⟩).headers "Content-Disposition".data =
         some ("attachment; filename=".data ++ f)) ∧
    (∀ url, h.S3API.presign h.S3Bucket (s3KeyForFileID h sf) = .ok url →
       getHeader (V2.ServeHTTP h ⟨.GET, pth, a⟩).headers "Content-Disposition".data =
         some ("attachment; filename=".data ++ f)) := by
  obtain ⟨hs', hj, ht, hn, hf, he⟩ := v2_parse_ok_inv hparse
  have hlist : ([sf.JobID, sf.TaskID, sf.NodeID, sf.Filename] : List GoStr) = [j, t, n, f] := by
    rw [← hs', hs]
  have hJ : sf.JobID = j := by injection hlist
  have hrest := hlist
  simp only [List.cons.injEq] at hrest
  obtain ⟨hJ', hT, hN, hF, -⟩ := hrest
  have hpth : pth = j ++ '/' :: (t ++ '/' :: (n ++ '/' :: f)) := by
    have := goJoin_splitN '/' 3 pth
    rw [hs] at this
    simpa [goJoin] using this.symm
  refine ⟨hF, ?_, ?_, ?_, ?_⟩
  · unfold s3KeyForFileID
    rw [hJ', hT, hN, hF]
  · intro hroot hgood
    have hkey := key_roundtrip_core pth sf h hgood hroot hparse
    refine ⟨hkey, ⟨j ++ '/' :: (t ++ '/' :: (n ++ ['/'])), ?_⟩⟩
    rw [hpth]
    simp
  · intro out hout
    rw [v1_serveGET, v1_handleGET_ok h _ _ sf u p ha out (v2_ok_imp_v1 hparse) hba hauth hout]
    cases out.ContentLength with
    | some cl =>
      show getHeader (setHeader (setHeader _ "Content-Disposition".data _)
        "Content-Length".data _) "Content-Disposition".data = _
      rw [getHeader_setHeader_ne _ _ _ _ (by decide), getHeader_setHeader_self, hF]
    | none =>
      show getHeader (setHeader _ "Content-Disposition".data _)
        "Content-Disposition".data = _
      rw [getHeader_setHeader_self, hF]
  · intro url hurl
    rw [v2_serveGET, v2_handleGET_ok h _ _ sf u p ha url hparse hba hauth hurl]
    show getHeader (setHeader (setHeader _ "Content-Disposition".data _)
      "Location".data _) "Content-Disposition".data = _
    rw [getHeader_setHeader_ne _ _ _ _ (by decide), getHeader_setHeader_self, hF]

/-- Witness for C10: on a concrete request the streaming variant's GET
response names the full fourth segment in `Content-Disposition`. -/
theorem C10_full_filename_everywhere_witness :
    getHeader (V1.ServeHTTP okHandler ⟨.GET, "j/t/n/1-x".data, none⟩).headers
      "Content-Disposition".data = some ("attachment; filename=".data ++ "1-x".data) :=
  (C10_full_filename_everywhere okHandler "j/t/n/1-x".data none
      ⟨"j".data, "t".data, "n".data, "1-x".data, 1⟩ "j".data "t".data "n".data "1-x".data
      [] [] false (by decide) (by decide) rfl rfl).2.2.2.1
    ⟨"I am fake file content".data, some 22⟩ rfl

/-- C1 counterexample: the claim says a GET for a public identity
whose object is missing from the backend yields 404.  On the streaming
variant with an allow-all policy and a backend failing with
`NoSuchKey`, the gateway responds 500, not 404 (the 401 path is indeed
untouched, but the 404 part of the claim is false). -/
theorem C1_counterexample :
    allowAll ⟨"j".data, "t".data, "n".data, "1-x".data, 1⟩ [] [] false = true ∧
    notFoundBackend.getObject "sage".data
      (s3KeyForFileID notFoundHandler ⟨"j".data, "t".data, "n".data, "1-x".data, 1⟩) =
      .error noSuchKeyErr ∧
    (V1.ServeHTTP notFoundHandler ⟨.GET, "j/t/n/1-x".data, none⟩).status = 500 ∧
    (V1.ServeHTTP notFoundHandler ⟨.GET, "j/t/n/1-x".data, none⟩).status ≠ 404 :=
  ⟨by decide, by decide, by decide, by decide⟩

/-- C1 (amended): for a GET whose path parses and whose identity the
policy engine classifies as public (authorized regardless of
credentials), when the backend object fetch fails — including with a
not-found error — the streaming variant responds 500 (never 404),
while the presign variant issues a 307 redirect and never consults the
backend's fetch operations at all; in both variants the authorization
failure path (401, `WWW-Authenticate`, `"not authorized"` body) is
never taken. -/
theorem C1_public_get_missing_object (h : StorageHandler) (pth : GoStr)
    (a : Option (GoStr × GoStr)) (sf : StorageFile) (err : S3Err)
    (hparse : V2.getRequestFileID pth = .ok sf)
    (hpub : ∀ u' p' ha', h.Authenticator sf u' p' ha' = true)
    (hnf : h.S3API.getObject h.S3Bucket (s3KeyForFileID h sf) = .error err) :
    (V1.ServeHTTP h ⟨.GET, pth, a⟩).status = 500 ∧
    (V1.ServeHTTP h ⟨.GET, pth, a⟩).status ≠ 404 ∧
    (V1.ServeHTTP h ⟨.GET, pth, a⟩).status ≠ 401 ∧
    getHeader (V1.ServeHTTP h ⟨.GET, pth, a⟩).headers "WWW-Authenticate".data = none ∧
    (V1.ServeHTTP h ⟨.GET, pth, a⟩).body ≠ .jsonError "not authorized".data ∧
    (∀ url, h.S3API.presign h.S3Bucket (s3KeyForFileID h sf) = .ok url →
       (V2.ServeHTTP h ⟨.GET, pth, a⟩).status = 307 ∧
       getHeader (V2.ServeHTTP h ⟨.GET, pth, a⟩).headers "WWW-Authenticate".data = none) ∧
    (∀ (gObj : GoStr → GoStr → Except S3Err GetObjectOutput)
       (hObj : GoStr → GoStr → Except S3Err HeadObjectOutput),
       V2.ServeHTTP ⟨⟨hObj, gObj, h.S3API.presign⟩, h.S3Bucket, h.S3RootFolder, h.Authenticator⟩
           ⟨.GET, pth, a⟩ =
         V2.ServeHTTP h ⟨.GET, pth, a⟩) := by
  rcases hba : Request.BasicAuth ⟨.GET, pth, a⟩ with ⟨u, pw, ha⟩
  have hparse1 := v2_ok_imp_v1 hparse
  have herr := v1_handleGET_backend_err h
    (setHeader [] "Access-Control-Allow-Origin".data "*".data) ⟨.GET, pth, a⟩
    sf u pw ha err hparse1 hba (hpub u pw ha) hnf
  rw [v1_serveGET, herr]
  have hlen : ("Error getting data, GetObject returned: ".data ++ err.errorString).length ≥ 40 := by
    rw [List.length_append]
    have : ("Error getting data, GetObject returned: ".data).length = 40 := by decide
    omega
  refine ⟨rfl, by simp [respondJSONError], by simp [respondJSONError], rfl, ?_, ?_, ?_⟩
  · intro hbody
    have : ("Error getting data, GetObject returned: ".data ++ err.errorString) =
        "not authorized".data := by
      injection hbody
    have h14 : ("not authorized".data : GoStr).length = 14 := by decide
    rw [this, h14] at hlen
    omega
  · intro url hurl
    have hok := v2_handleGET_ok h
      (setHeader [] "Access-Control-Allow-Origin".data "*".data) ⟨.GET, pth, a⟩
      sf u pw ha url hparse hba (hpub u pw ha) hurl
    rw [v2_serveGET, hok]
    exact ⟨rfl, rfl⟩
  · intro gObj hObj
    rfl

/-- Witness for C1: concrete public GET on a missing object returns
500 in the streaming variant. -/
theorem C1_public_get_missing_object_witness :
    (V1.ServeHTTP notFoundHandler ⟨.GET, "j2/t2/n2/5-y".data, none⟩).status = 500 :=
  (C1_public_get_missing_object notFoundHandler "j2/t2/n2/5-y".data none
    ⟨"j2".data, "t2".data, "n2".data, "5-y".data, 5⟩ noSuchKeyErr
    (by decide) (fun _ _ _ => rfl) rfl).1

/-! ## Backend error classification (HEAD paths) -/

/-- The streaming variant's not-found class: AWS errors with code
`NoSuchBucket`, `NoSuchKey`, or `NotFound`. -/
def v1NotFound : S3Err → Bool
  | .aws aerr =>
    aerr.code = ErrCodeNoSuchBucket || aerr.code = ErrCodeNoSuchKey ||
      aerr.code = "NotFound".data
  | .generic _ => false

/-- The presign variant's not-found class: AWS codes
`NoSuchBucket`/`NoSuchKey`, or any error whose diagnostic text starts
with `NotFound`. -/
def v2NotFound (err : S3Err) : Bool :=
  (match err with
   | .aws aerr => aerr.code = ErrCodeNoSuchBucket || aerr.code = ErrCodeNoSuchKey
   | .generic _ => false) || ("NotFound".data).isPrefixOf err.errorString

/-- What the streaming variant embeds in its HEAD 500 body: the AWS
error code, or the whole message of a non-AWS error. -/
def v1Diag : S3Err → GoStr
  | .aws aerr => aerr.code
  | .generic msg => msg

theorem handleS3Error_spec (hdrs : Headers) (err : S3Err) :
    (V2.handleS3Error hdrs err).status = (if v2NotFound err then 404 else 500) ∧
    (v2NotFound err = false →
      (V2.handleS3Error hdrs err).body =
        .jsonError ("internal server error with S3 request: ".data ++ err.errorString)) := by
  unfold V2.handleS3Error v2NotFound
  cases err with
  | aws aerr =>
    dsimp only
    by_cases h1 : (aerr.code = ErrCodeNoSuchBucket || aerr.code = ErrCodeNoSuchKey) = true
    · simp [h1, respondJSONError]
    · rw [Bool.not_eq_true] at h1
      by_cases h2 : ("NotFound".data) <+: (S3Err.errorString (.aws aerr))
      · simp [S3Err.errorString] at h2
        simp [h1, h2, respondJSONError, S3Err.errorString]
      · simp [S3Err.errorString] at h2
        simp [h1, h2, respondJSONError, S3Err.errorString]
  | generic msg =>
    dsimp only
    by_cases h2 : ("NotFound".data) <+: (S3Err.errorString (.generic msg))
    · simp [S3Err.errorString] at h2
      simp [h2, respondJSONError, S3Err.errorString]
    · simp [S3Err.errorString] at h2
      simp [h2, respondJSONError, S3Err.errorString]

theorem v1_handleHEAD_backend_err (h : StorageHandler) (hdrs : Headers) (r : Request)
    (sf : StorageFile) (err : S3Err)
    (hparse : V1.getRequestFileID r.path = .ok sf)
    (herr : h.S3API.headObject h.S3Bucket (s3KeyForFileID h sf) = .error err) :
    (V1.handleHEAD h hdrs r).status = (if v1NotFound err then 404 else 500) ∧
    (v1NotFound err = false →
      (V1.handleHEAD h hdrs r).body =
        .jsonError ("Error getting data, HeadObjectWithContext returned: ".data ++
          v1Diag err)) := by
  unfold V1.handleHEAD
  rw [hparse]
  dsimp only
  rw [herr]
  cases err with
  | aws aerr =>
    dsimp only [v1NotFound, v1Diag]
    by_cases h1 : aerr.code = ErrCodeNoSuchBucket
    · simp [h1, respondJSONError, ErrCodeNoSuchBucket, ErrCodeNoSuchKey]
    · by_cases h2 : aerr.code = ErrCodeNoSuchKey ∨ aerr.code = "NotFound".data
      · rcases h2 with h2 | h2 <;>
          simp [h1, h2, respondJSONError, ErrCodeNoSuchBucket, ErrCodeNoSuchKey]
      · push_neg at h2
        simp [h1, h2.1, h2.2, respondJSONError]
  | generic msg =>
    dsimp only [v1NotFound, v1Diag]
    simp [respondJSONError]

theorem v2_handleHEAD_backend_err (h : StorageHandler) (hdrs : Headers) (r : Request)
    (sf : StorageFile) (err : S3Err)
    (hparse : V2.getRequestFileID r.path = .ok sf)
    (herr : h.S3API.headObject h.S3Bucket (s3KeyForFileID h sf) = .error err) :
    V2.handleHEAD h hdrs r = V2.handleS3Error hdrs err := by
  unfold V2.handleHEAD
  rw [hparse]
  dsimp only
  rw [herr]

/-- C7 counterexample: the claim says every non-not-found backend
error yields a 5xx body embedding the backend's diagnostic message.
In the streaming variant an AWS `AccessDenied: Access Denied` failure
yields a 500 whose body carries only the code `AccessDenied`; the full
diagnostic `AccessDenied: Access Denied` does not occur in the body. -/
theorem C7_counterexample :
    (V1.ServeHTTP deniedHandler ⟨.HEAD, "j/t/n/1-x".data, none⟩).status = 500 ∧
    (V1.ServeHTTP deniedHandler ⟨.HEAD, "j/t/n/1-x".data, none⟩).body =
      .jsonError "Error getting data, HeadObjectWithContext returned: AccessDenied".data ∧
    S3Err.errorString deniedErr = "AccessDenied: Access Denied".data ∧
    ¬ ("AccessDenied: Access Denied".data <:+:
        "Error getting data, HeadObjectWithContext returned: AccessDenied".data) :=
  ⟨by decide, by decide, by decide, by decide⟩

/-- C7 (amended): for a HEAD whose path parses, on a backend error:
the streaming variant returns 404 exactly for AWS errors coded
`NoSuchBucket`/`NoSuchKey`/`NotFound` and otherwise 500 with a body
embedding the AWS error code (the whole message for non-AWS errors);
the presign variant returns 404 exactly for AWS codes
`NoSuchBucket`/`NoSuchKey` or any diagnostic starting with
`NotFound`, and otherwise 500 with the full diagnostic embedded. -/
theorem C7_head_backend_error_mapping (h : StorageHandler) (pth : GoStr)
    (a : Option (GoStr × GoStr)) (sf : StorageFile) (err : S3Err)
    (hparse : V2.getRequestFileID pth = .ok sf)
    (herr : h.S3API.headObject h.S3Bucket (s3KeyForFileID h sf) = .error err) :
    ((V1.ServeHTTP h ⟨.HEAD, pth, a⟩).status = if v1NotFound err then 404 else 500) ∧
    (v1NotFound err = false →
       ∃ pre, (V1.ServeHTTP h ⟨.HEAD, pth, a⟩).body = .jsonError (pre ++ v1Diag err)) ∧
    ((V2.ServeHTTP h ⟨.HEAD, pth, a⟩).status = if v2NotFound err then 404 else 500) ∧
    (v2NotFound err = false →
       ∃ pre, (V2.ServeHTTP h ⟨.HEAD, pth, a⟩).body = .jsonError (pre ++ err.errorString)) := by
  have hparse1 := v2_ok_imp_v1 hparse
  have h1 := v1_handleHEAD_backend_err h
    (setHeader [] "Access-Control-Allow-Origin".data "*".data) ⟨.HEAD, pth, a⟩ sf err
    hparse1 herr
  have h2eq := v2_handleHEAD_backend_err h
    (setHeader [] "Access-Control-Allow-Origin".data "*".data) ⟨.HEAD, pth, a⟩ sf err
    hparse herr
  have h2 := handleS3Error_spec
    (setHeader [] "Access-Control-Allow-Origin".data "*".data) err
  rw [v1_serveHEAD, v2_serveHEAD, h2eq]
  exact ⟨h1.1, fun hnf => ⟨_, h1.2 hnf⟩, h2.1, fun hnf => ⟨_, h2.2 hnf⟩⟩

/-- Witness for C7: a concrete `NoSuchKey` failure maps to 404 in both
variants. -/
theorem C7_head_backend_error_mapping_witness :
    (V1.ServeHTTP notFoundHandler ⟨.HEAD, "j/t/n/1-x".data, none⟩).status = 404 ∧
    (V2.ServeHTTP notFoundHandler ⟨.HEAD, "j/t/n/1-x".data, none⟩).status = 404 := by
  have := C7_head_backend_error_mapping notFoundHandler "j/t/n/1-x".data none
    ⟨"j".data, "t".data, "n".data, "1-x".data, 1⟩ noSuchKeyErr (by decide) rfl
  exact ⟨by rw [this.1]; decide, by rw [this.2.2.1]; decide⟩

/-! ## HEAD success-path characterizations -/

theorem v1_handleHEAD_ok (h : StorageHandler) (hdrs : Headers) (r : Request)
    (sf : StorageFile) (meta : HeadObjectOutput)
    (hparse : V1.getRequestFileID r.path = .ok sf)
    (hok : h.S3API.headObject h.S3Bucket (s3KeyForFileID h sf) = .ok meta) :
    V1.handleHEAD h hdrs r =
      respondJSON
        (match meta.ContentLength with
         | some cl => addHeader hdrs "Content-Length".data (formatInt cl)
         | none => hdrs) 200 meta := by
  unfold V1.handleHEAD
  rw [hparse]
  dsimp only
  rw [hok]

theorem v2_handleHEAD_ok (h : StorageHandler) (hdrs : Headers) (r : Request)
    (sf : StorageFile) (meta : HeadObjectOutput)
    (hparse : V2.getRequestFileID r.path = .ok sf)
    (hok : h.S3API.headObject h.S3Bucket (s3KeyForFileID h sf) = .ok meta) :
    V2.handleHEAD h hdrs r =
      ⟨200,
        (match meta.ContentLength with
         | some cl =>
           addHeader (setHeader hdrs "Content-Disposition".data
             ("attachment; filename=".data ++ sf.Filename)) "Content-Length".data (formatInt cl)
         | none =>
           setHeader hdrs "Content-Disposition".data
             ("attachment; filename=".data ++ sf.Filename)),
        .empty⟩ := by
  unfold V2.handleHEAD
  rw [hparse]
  dsimp only
  rw [hok]

/-- C8 counterexample: the claim says a successful HEAD carries both a
`Content-Disposition` header naming the file and a JSON body mirroring
the metadata.  On a successful backend fetch the streaming variant
sets no `Content-Disposition` at all, and the presign variant returns
an empty body — each variant falsifies one half of the conjunction. -/
theorem C8_counterexample :
    getHeader (V1.ServeHTTP okHandler ⟨.HEAD, "j/t/n/1-x".data, none⟩).headers
      "Content-Disposition".data = none ∧
    (V2.ServeHTTP okHandler ⟨.HEAD, "j/t/n/1-x".data, none⟩).body = .empty :=
  ⟨by decide, by decide⟩

/-- C8 (amended): for a HEAD whose path parses and whose backend
metadata fetch succeeds, both variants respond 200 and set
`Content-Length` when the backend reports a length; the streaming
variant returns a JSON body mirroring the metadata record but sets no
`Content-Disposition`; the presign variant sets
`Content-Disposition: attachment; filename=<file>` but returns an
empty body. -/
theorem C8_head_success (h : StorageHandler) (pth : GoStr) (a : Option (GoStr × GoStr))
    (sf : StorageFile) (meta : HeadObjectOutput)
    (hparse : V2.getRequestFileID pth = .ok sf)
    (hok : h.S3API.headObject h.S3Bucket (s3KeyForFileID h sf) = .ok meta) :
    (V1.ServeHTTP h ⟨.HEAD, pth, a⟩).status = 200 ∧
    (V1.ServeHTTP h ⟨.HEAD, pth, a⟩).body = .jsonMeta meta ∧
    (∀ cl, meta.ContentLength = some cl →
       getHeader (V1.ServeHTTP h ⟨.HEAD, pth, a⟩).headers "Content-Length".data =
         some (formatInt cl)) ∧
    getHeader (V1.ServeHTTP h ⟨.HEAD, pth, a⟩).headers "Content-Disposition".data = none ∧
    (V2.ServeHTTP h ⟨.HEAD, pth, a⟩).status = 200 ∧
    (V2.ServeHTTP h ⟨.HEAD, pth, a⟩).body = .empty ∧
    (∀ cl, meta.ContentLength = some cl →
       getHeader (V2.ServeHTTP h ⟨.HEAD, pth, a⟩).headers "Content-Length".data =
         some (formatInt cl)) ∧
    getHeader (V2.ServeHTTP h ⟨.HEAD, pth, a⟩).headers "Content-Disposition".data =
      some ("attachment; filename=".data ++ sf.Filename) := by
  have hparse1 := v2_ok_imp_v1 hparse
  have h1 := v1_handleHEAD_ok h
    (setHeader [] "Access-Control-Allow-Origin".data "*".data) ⟨.HEAD, pth, a⟩ sf meta
    hparse1 hok
  have h2 := v2_handleHEAD_ok h
    (setHeader [] "Access-Control-Allow-Origin".data "*".data) ⟨.HEAD, pth, a⟩ sf meta
    hparse hok
  rw [v1_serveHEAD, v2_serveHEAD, h1, h2]
  refine ⟨?_, ?_, ?_, ?_, ?_, ?_, ?_, ?_⟩
  · cases meta.ContentLength <;> rfl
  · cases meta.ContentLength <;> rfl
  · intro cl hcl
    rw [hcl]
    show getHeader (setHeader (addHeader _ "Content-Length".data _)
      "Content-Type".data _) "Content-Length".data = _
    rw [getHeader_setHeader_ne _ _ _ _ (by decide)]
    exact getHeader_setHeader_self _ _ _
  · cases hcl : meta.ContentLength with
    | some cl => rfl
    | none => rfl
  · cases meta.ContentLength <;> rfl
  · cases meta.ContentLength <;> rfl
  · intro cl hcl
    rw [hcl]
    exact getHeader_setHeader_self _ _ _
  · cases hcl : meta.ContentLength with
    | some cl =>
      show getHeader (addHeader (setHeader _ "Content-Disposition".data _)
        "Content-Length".data _) "Content-Disposition".data = _
      rw [getHeader_addHeader_ne _ _ _ _ (by decide)]
      exact getHeader_setHeader_self _ _ _
    | none =>
      exact getHeader_setHeader_self _ _ _

/-- Witness for C8: concrete successful HEAD responses — 200 with the
mock metadata body in the streaming variant, empty body in the presign
variant. -/
theorem C8_head_success_witness :
    (V1.ServeHTTP okHandler ⟨.HEAD, "j/t/n/1-x".data, none⟩).body =
      .jsonMeta ⟨some 22, some "klingon".data⟩ ∧
    (V2.ServeHTTP okHandler ⟨.HEAD, "j/t/n/1-x".data, none⟩).status = 200 := by
  have := C8_head_success okHandler "j/t/n/1-x".data none
    ⟨"j".data, "t".data, "n".data, "1-x".data, 1⟩ ⟨some 22, some "klingon".data⟩
    (by decide) rfl
  exact ⟨this.2.1, this.2.2.2.2.1⟩
